import Mathlib

/-!
Verification of the tabular-rendering module (`src/tabulate.py`) of the
PROYECTO-FINAL repository, against its natural-language specification.

The retained sources keep the Python-3 branch of the module alive
(lines 25-37 of `src/tabulate.py`): `_none_type = type(None)`,
`_int_type = int`, `_long_type = int`, `_float_type = float`,
`_text_type = str`, `_binary_type = bytes`.  The embedding below follows
that branch.  Cell values are modelled by the inductive type `PyVal`,
covering the value categories of the specification's data model
(missing, integer, floating point, text, raw byte-string, and values
exposing an `isoformat` attribute such as dates).  Python exceptions are
modelled by `Except PyErr`.
-/

set_option maxRecDepth 4000

/-- Python exception categories relevant to `_isconvertible`
(`src/tabulate.py` lines 279-284): `ValueError` and `TypeError` are
caught there, anything else (e.g. `OverflowError`) propagates. -/
inductive PyErr where
  | valueError
  | typeError
  | otherError
deriving DecidableEq, Repr

/-- The two integer-type parameters `_isint` can receive
(`src/tabulate.py` lines 299, 336-339): `int` and `_long_type`.  In the
Python-3 branch of the source (lines 26-33) `_long_type = int`, so both
constructors denote the very same runtime type. -/
inductive IntType where
  | int
  | long
deriving DecidableEq, Repr

/-- Cell values, the scalar universe of the specification's data model:
missing marker, integers, floating-point numbers (carried as their
rendered literal, since no claim computes with the numeric value), text,
raw byte-strings (payload kept as a character sequence), and date/time
values, which are exactly the values exposing an `isoformat` attribute. -/
inductive PyVal where
  | none
  | int (n : Int)
  | float (lit : String)
  | str (s : String)
  | bytes (b : String)
  | date (iso : String)
deriving DecidableEq, Repr

/-- The classification results of `_type` (`src/tabulate.py` lines
312-345): `type(None)`, `int`, `_long_type`, `float`, `_binary_type`,
`_text_type`. -/
inductive PyType where
  | noneT
  | intT
  | longT
  | floatT
  | binaryT
  | textT
deriving DecidableEq, Repr, Fintype

/-- `isinstance(v, _text_type)` for the Python-3 branch (`str`). -/
def isText (v : PyVal) : Bool :=
  match v with
  | PyVal.str _ => true
  | _ => false

/-- `isinstance(v, _binary_type)` for the Python-3 branch (`bytes`). -/
def isBinary (v : PyVal) : Bool :=
  match v with
  | PyVal.bytes _ => true
  | _ => false

/-- `v is None`. -/
def isNone (v : PyVal) : Bool :=
  match v with
  | PyVal.none => true
  | _ => false

/-- `hasattr(v, "isoformat")`: true exactly for date/time values
(`src/tabulate.py` line 334). -/
def hasIsoformat (v : PyVal) : Bool :=
  match v with
  | PyVal.date _ => true
  | _ => false

/-- `type(v) is inttype` (`src/tabulate.py` line 306).  In the Python-3
branch both `IntType.int` and `IntType.long` denote the runtime type
`int`, so the test does not depend on the parameter. -/
def typeIs (t : IntType) (v : PyVal) : Bool :=
  match v with
  | PyVal.int _ => true
  | _ => false

/-- Drop a leading ASCII sign character, as Python's numeric parsers do. -/
def dropSign (l : List Char) : List Char :=
  match l with
  | c :: cs => if c = '+' || c = '-' then cs else c :: cs
  | [] => []

/-- Strip leading and trailing whitespace, as Python's `int`/`float`
parsers do before reading the literal. -/
def stripWS (l : List Char) : List Char :=
  ((l.dropWhile Char.isWhitespace).reverse.dropWhile Char.isWhitespace).reverse

/-- Model of Python's `int(string)` success condition on a character
sequence: optional surrounding whitespace, an optional sign, then one or
more decimal digits. -/
def strIsIntLit (s : String) : Bool :=
  let l := dropSign (stripWS s.toList)
  !l.isEmpty && l.all Char.isDigit

/-- Split off a maximal run of leading decimal digits, returning how many
there were together with the remainder. -/
def spanDigits (l : List Char) : Nat × List Char :=
  match l with
  | c :: cs =>
      if c.isDigit then
        let p := spanDigits cs
        (p.1 + 1, p.2)
      else (0, c :: cs)
  | [] => (0, [])

/-- Accept an optional exponent part (`e`/`E`, optional sign, one or more
digits) followed by end of input. -/
def expOk (l : List Char) : Bool :=
  match l with
  | [] => true
  | c :: cs =>
      if c = 'e' || c = 'E' then
        let m := dropSign cs
        !m.isEmpty && m.all Char.isDigit
      else false

/-- Model of Python's `float(string)` success condition on a character
sequence: optional whitespace and sign, then a decimal literal with an
optional fractional part and an optional exponent.  (The special literals
`inf`/`nan` accepted by Python are not modelled; no claim depends on
them.) -/
def strIsFloatLit (s : String) : Bool :=
  let l := dropSign (stripWS s.toList)
  let p := spanDigits l
  match p.2 with
  | [] => decide (0 < p.1)
  | c :: cs =>
      if c = '.' then
        let q := spanDigits cs
        (decide (0 < p.1) || decide (0 < q.1)) && expOk q.2
      else decide (0 < p.1) && expOk (c :: cs)

/-- Model of the Python builtin `int(...)` applied to a cell value, as
passed to `_isconvertible` by `_isint` (`src/tabulate.py` line 309).
`int(None)` and `int(date)` raise `TypeError`; on text and byte-strings
it raises `ValueError` unless the literal parses; on floats it truncates,
except that `int(nan)` raises `ValueError` and `int(inf)` raises
`OverflowError` (modelled by `PyErr.otherError`).  Only success matters
to the callers, so the result payload is `Unit`. -/
def intConv (t : IntType) (v : PyVal) : Except PyErr Unit :=
  match v with
  | PyVal.none => Except.error PyErr.typeError
  | PyVal.int _ => Except.ok ()
  | PyVal.float lit =>
      if lit = "nan" || lit = "-nan" then Except.error PyErr.valueError
      else if lit = "inf" || lit = "-inf" then Except.error PyErr.otherError
      else Except.ok ()
  | PyVal.str s => if strIsIntLit s then Except.ok () else Except.error PyErr.valueError
  | PyVal.bytes b => if strIsIntLit b then Except.ok () else Except.error PyErr.valueError
  | PyVal.date _ => Except.error PyErr.typeError

/-- Model of the Python builtin `float(...)` applied to a cell value, as
passed to `_isconvertible` by `_isnumber` (`src/tabulate.py` line 296). -/
def floatConv (v : PyVal) : Except PyErr Unit :=
  match v with
  | PyVal.none => Except.error PyErr.typeError
  | PyVal.int _ => Except.ok ()
  | PyVal.float _ => Except.ok ()
  | PyVal.str s => if strIsFloatLit s then Except.ok () else Except.error PyErr.valueError
  | PyVal.bytes b => if strIsFloatLit b then Except.ok () else Except.error PyErr.valueError
  | PyVal.date _ => Except.error PyErr.typeError

/-- Decidable equality of modelled Python results, used to evaluate the
embedding on concrete inputs. -/
instance exceptDecEq {ε α : Type} [DecidableEq ε] [DecidableEq α] :
    DecidableEq (Except ε α) := fun a b =>
  match a, b with
  | Except.error e1, Except.error e2 =>
      if h : e1 = e2 then isTrue (congrArg Except.error h)
      else isFalse (fun hc => h (Except.error.inj hc))
  | Except.ok x, Except.ok y =>
      if h : x = y then isTrue (congrArg Except.ok h)
      else isFalse (fun hc => h (Except.ok.inj hc))
  | Except.error _, Except.ok _ => isFalse (fun hc => Except.noConfusion hc)
  | Except.ok _, Except.error _ => isFalse (fun hc => Except.noConfusion hc)

/-- Whether an attempted conversion succeeded. -/
def convOk {α : Type} (r : Except PyErr α) : Bool :=
  match r with
  | Except.ok _ => true
  | Except.error _ => false

/-- Drop a maximal run of leading decimal digits (the `\d*` pieces of the
ANSI patterns `_invisible_codes`, `src/tabulate.py` lines 261-262). -/
def dropDigits (l : List Char) : List Char :=
  match l with
  | c :: cs => if c.isDigit then dropDigits cs else c :: cs
  | [] => []

/-- Match the tail of an ANSI SGR sequence after `ESC [`: either
`digits m` or `digits ; digits ; digits m`, the two alternatives of the
regular expression `_invisible_codes` (`src/tabulate.py` line 261).
Returns the remaining input on success. -/
def matchSgrTail (l : List Char) : Option (List Char) :=
  match dropDigits l with
  | [] => Option.none
  | c :: r =>
      if c = 'm' then Option.some r
      else
        if c = ';' then
          match dropDigits r with
          | [] => Option.none
          | c2 :: r2 =>
              if c2 = ';' then
                match dropDigits r2 with
                | [] => Option.none
                | c3 :: r3 => if c3 = 'm' then Option.some r3 else Option.none
              else Option.none
        else Option.none

/-- Match a full ANSI SGR escape sequence at the head of the input. -/
def matchAnsi (l : List Char) : Option (List Char) :=
  match l with
  | c1 :: c2 :: rest =>
      if c1 = '\x1b' then if c2 = '[' then matchSgrTail rest else Option.none
      else Option.none
  | _ => Option.none

/-- Remove every ANSI SGR escape sequence, scanning left to right.  The
first argument is fuel; one unit is spent per retained or removed match
head, so fuel equal to the input length always suffices. -/
def stripAnsiGo (fuel : Nat) (l : List Char) : List Char :=
  match fuel, l with
  | 0, _ => []
  | _ + 1, [] => []
  | n + 1, c :: cs =>
      match matchAnsi (c :: cs) with
      | Option.some rest => stripAnsiGo n rest
      | Option.none => c :: stripAnsiGo n cs

/-- Modelled from the spec: `_strip_invisible` is not among the retained
sources (the file breaks off at line 361); per the specification
(section 4.1) it removes the ANSI SGR escape sequences matched by
`_invisible_codes` (`src/tabulate.py` lines 261-262) from the text. -/
def _strip_invisible (s : String) : String :=
  String.mk (stripAnsiGo s.toList.length s.toList)

/-- Apply `_strip_invisible` to the payload of a textual or byte-string
value, as `_type` does before classifying (`src/tabulate.py` lines
328-330). -/
def stripVal (v : PyVal) : PyVal :=
  match v with
  | PyVal.str s => PyVal.str (_strip_invisible s)
  | PyVal.bytes b => PyVal.bytes (_strip_invisible b)
  | x => x

/-- `_isconvertible(conv, string)` (`src/tabulate.py` lines 279-284):
attempt the conversion, return `True` on success and `False` when it
raises `ValueError` or `TypeError`; any other exception propagates
(modelled by the `Except.error` result). -/
def _isconvertible {α : Type} (conv : PyVal → Except PyErr α) (string : PyVal) :
    Except PyErr Bool :=
  match conv string with
  | Except.ok _ => Except.ok true
  | Except.error PyErr.valueError => Except.ok false
  | Except.error PyErr.typeError => Except.ok false
  | Except.error PyErr.otherError => Except.error PyErr.otherError

/-- `_isnumber(string)` (`src/tabulate.py` lines 287-296):
`_isconvertible(float, string)`. -/
def _isnumber (string : PyVal) : Except PyErr Bool :=
  _isconvertible floatConv string

/-- `_isint(string, inttype)` (`src/tabulate.py` lines 299-309):
`type(string) is inttype or (isinstance(string, _binary_type) or
isinstance(string, _text_type)) and _isconvertible(inttype, string)`,
with Python's lazy `or`/`and` evaluation made explicit. -/
def _isint (string : PyVal) (inttype : IntType) : Except PyErr Bool :=
  if typeIs inttype string then Except.ok true
  else
    if isBinary string || isText string then _isconvertible (intConv inttype) string
    else Except.ok false

/-- The classification chain of `_type` after the optional stripping step
(`src/tabulate.py` lines 332-345), with `Except.bind` modelling the
propagation of uncaught exceptions out of the convertibility checks. -/
def _typeCore (s : PyVal) : Except PyErr PyType :=
  if isNone s then Except.ok PyType.noneT
  else
    if hasIsoformat s then Except.ok PyType.textT
    else
      Except.bind (_isint s IntType.int) (fun b1 =>
        if b1 then Except.ok PyType.intT
        else
          Except.bind (_isint s IntType.long) (fun b2 =>
            if b2 then Except.ok PyType.longT
            else
              Except.bind (_isnumber s) (fun b3 =>
                if b3 then Except.ok PyType.floatT
                else
                  if isBinary s then Except.ok PyType.binaryT
                  else Except.ok PyType.textT)))

/-- `_type(string, has_invisible)` (`src/tabulate.py` lines 312-345):
strip invisible escape sequences from textual or byte-string input when
enabled, then classify through the chain `_typeCore`. -/
def _type (string : PyVal) (has_invisible : Bool) : Except PyErr PyType :=
  let s :=
    if has_invisible && (isText string || isBinary string) then stripVal string
    else string
  _typeCore s

/-- The classification chain exactly as the claim states it, after the
optional stripping step: missing → none; already of integer type → int;
isoformat attribute → text; convertible to the target integer type → int
(where, per the specification section 4.1, a value is convertible to a
numeric type when attempting that conversion succeeds without raising);
convertible to the wider integer representation → long; convertible to
floating point → float; raw byte-string → binary-text; else text. -/
def typeClaimOrderCore (s : PyVal) : PyType :=
  if isNone s then PyType.noneT
  else
    if typeIs IntType.int s then PyType.intT
    else
      if hasIsoformat s then PyType.textT
      else
        if convOk (intConv IntType.int s) then PyType.intT
        else
          if convOk (intConv IntType.long s) then PyType.longT
          else
            if convOk (floatConv s) then PyType.floatT
            else
              if isBinary s then PyType.binaryT
              else PyType.textT

/-- The classification order claimed for `_type`, stated on whole values
(stripping applied first when enabled, as the claim's parenthetical
says). -/
def typeClaimOrder (v : PyVal) (has_invisible : Bool) : PyType :=
  let s :=
    if has_invisible && (isText v || isBinary v) then stripVal v
    else v
  typeClaimOrderCore s

/-- The claimed classification chain amended minimally: the two integer
convertibility steps apply only to text or byte-string input, matching
the guard inside `_isint` (`src/tabulate.py` lines 306-309). -/
def typeClaimOrderAmendedCore (s : PyVal) : PyType :=
  if isNone s then PyType.noneT
  else
    if typeIs IntType.int s then PyType.intT
    else
      if hasIsoformat s then PyType.textT
      else
        if (isBinary s || isText s) && convOk (intConv IntType.int s) then PyType.intT
        else
          if (isBinary s || isText s) && convOk (intConv IntType.long s) then PyType.longT
          else
            if convOk (floatConv s) then PyType.floatT
            else
              if isBinary s then PyType.binaryT
              else PyType.textT

/-- The amended classification order on whole values. -/
def typeClaimOrderAmended (v : PyVal) (has_invisible : Bool) : PyType :=
  let s :=
    if has_invisible && (isText v || isBinary v) then stripVal v
    else v
  typeClaimOrderAmendedCore s

/-- A whitespace-stripped suffix, modelling Python's `str.rstrip()` as
used by the row builders (`src/tabulate.py` lines 120 and 130). -/
def rstrip (s : String) : String :=
  String.mk ((s.toList.reverse.dropWhile Char.isWhitespace).reverse)

/-- Python's `sep.join(parts)`. -/
def joinSep (sep : String) (parts : List String) : String :=
  match parts with
  | [] => ""
  | [x] => x
  | x :: xs => x ++ sep ++ joinSep sep xs

/-- Python's `s * n` string repetition. -/
def repeatStr (s : String) (n : Nat) : String :=
  String.mk (List.flatten (List.replicate n s.toList))

/-- A run of `n` spaces. -/
def spaces (n : Nat) : String :=
  String.mk (List.replicate n ' ')

/-- The `Line` namedtuple (`src/tabulate.py` line 47): the pieces of a
horizontal rule. -/
structure Line where
  begin_ : String
  hline : String
  sep : String
  end_ : String
deriving DecidableEq, Repr

/-- The `DataRow` namedtuple (`src/tabulate.py` line 50): the pieces of a
rendered row. -/
structure DataRow where
  begin_ : String
  sep : String
  end_ : String
deriving DecidableEq, Repr

/-- `_pipe_segment_with_colons(align, colwidth)` (`src/tabulate.py` lines
90-101). -/
def _pipe_segment_with_colons (align : String) (colwidth : Nat) : String :=
  let w := colwidth
  if align = "right" ∨ align = "decimal" then repeatStr "-" (w - 1) ++ ":"
  else
    if align = "center" then ":" ++ repeatStr "-" (w - 2) ++ ":"
    else
      if align = "left" then ":" ++ repeatStr "-" (w - 1)
      else repeatStr "-" w

/-- `_pipe_line_with_colons(colwidths, colaligns)` (`src/tabulate.py`
lines 104-108). -/
def _pipe_line_with_colons (colwidths : List Nat) (colaligns : List String) : String :=
  let segments := (colaligns.zip colwidths).map (fun p => _pipe_segment_with_colons p.1 p.2)
  "|" ++ joinSep "|" segments ++ "|"

/-- The `alignment` attribute table of `_mediawiki_row_with_attrs`
(`src/tabulate.py` lines 111-114), with `dict.get(a, '')` default. -/
def mediawikiAlignAttr (a : String) : String :=
  if a = "left" then ""
  else
    if a = "right" then "align=\"right\"| "
    else
      if a = "center" then "align=\"center\"| "
      else
        if a = "decimal" then "align=\"right\"| "
        else ""

/-- `_mediawiki_row_with_attrs(separator, cell_values, colwidths,
colaligns)` (`src/tabulate.py` lines 110-120). -/
def _mediawiki_row_with_attrs (separator : String) (cell_values : List String)
    (colwidths : List Nat) (colaligns : List String) : String :=
  let values_with_attrs :=
    (cell_values.zip colaligns).map (fun p => " " ++ mediawikiAlignAttr p.2 ++ p.1 ++ " ")
  let colsep := separator ++ separator
  rstrip (separator ++ joinSep colsep values_with_attrs)

/-- The `alignment` style table of `_html_row_with_attrs`
(`src/tabulate.py` lines 124-127), with `dict.get(a, '')` default. -/
def htmlAlignAttr (a : String) : String :=
  if a = "left" then ""
  else
    if a = "right" then " style=\"text-align: right;\""
    else
      if a = "center" then " style=\"text-align: center;\""
      else
        if a = "decimal" then " style=\"text-align: right;\""
        else ""

/-- `_html_row_with_attrs(celltag, cell_values, colwidths, colaligns)`
(`src/tabulate.py` lines 123-130). -/
def _html_row_with_attrs (celltag : String) (cell_values : List String)
    (colwidths : List Nat) (colaligns : List String) : String :=
  let values_with_attrs :=
    (cell_values.zip colaligns).map
      (fun p => "<" ++ celltag ++ htmlAlignAttr p.2 ++ ">" ++ p.1 ++ "</" ++ celltag ++ ">")
  "<tr>" ++ rstrip (String.join values_with_attrs) ++ "</tr>"

/-- The per-column alignment letters of `_latex_line_begin_tabular`
(`src/tabulate.py` line 134), with `dict.get(a, "l")` default. -/
def latexColLetter (a : String) : String :=
  if a = "left" then "l"
  else
    if a = "right" then "r"
    else
      if a = "center" then "c"
      else
        if a = "decimal" then "r"
        else "l"

/-- `_latex_line_begin_tabular(colwidths, colaligns, booktabs)`
(`src/tabulate.py` lines 133-137). -/
def _latex_line_begin_tabular (colwidths : List Nat) (colaligns : List String)
    (booktabs : Bool) : String :=
  let tabular_columns_fmt := String.join (colaligns.map latexColLetter)
  "\\begin\x7btabular\x7d\x7b" ++ tabular_columns_fmt ++ "\x7d" ++ "\n" ++
    (if booktabs then "\\toprule" else "\\hline")

/-- `LATEX_ESCAPE_RULES` (`src/tabulate.py` lines 139-142). -/
def LATEX_ESCAPE_RULES : List (Char × String) :=
  [('&', "\\&"), ('%', "\\%"), ('$', "\\$"), ('#', "\\#"),
   ('_', "\\_"), ('^', "\\^\x7b\x7d"), ('\x7b', "\\\x7b"), ('\x7d', "\\\x7d"),
   ('~', "\\textasciitilde\x7b\x7d"), ('\\', "\\textbackslash\x7b\x7d"),
   ('<', "\\ensuremath\x7b<\x7d"), ('>', "\\ensuremath\x7b>\x7d")]

/-- `escape_char(c)` from `_latex_row` (`src/tabulate.py` lines 146-147):
`LATEX_ESCAPE_RULES.get(c, c)`. -/
def escape_char (c : Char) : String :=
  match LATEX_ESCAPE_RULES.find? (fun p => p.1 == c) with
  | Option.some p => p.2
  | Option.none => String.singleton c

/-- `"".join(map(escape_char, cell))` from `_latex_row`
(`src/tabulate.py` line 148). -/
def latexEscapeStr (cell : String) : String :=
  String.join (cell.toList.map escape_char)

/-- Modelled from the spec: `_build_simple_row` is referenced by
`_latex_row` (`src/tabulate.py` line 150) but its body is not among the
retained sources.  Per the specification (section 4.5) a fixed-quad row
renders by joining the cell strings with the separator inside the
begin/end brackets; trailing whitespace is trimmed as in the row
builders that are retained (`src/tabulate.py` lines 120 and 130). -/
def _build_simple_row (padded_cells : List String) (rowfmt : DataRow) : String :=
  rstrip (rowfmt.begin_ ++ joinSep rowfmt.sep padded_cells ++ rowfmt.end_)

/-- `_latex_row(cell_values, colwidths, colaligns)` (`src/tabulate.py`
lines 145-150). -/
def _latex_row (cell_values : List String) (colwidths : List Nat)
    (colaligns : List String) : String :=
  let escaped_values := cell_values.map latexEscapeStr
  let rowfmt := DataRow.mk "" "&" "\\\\"
  _build_simple_row escaped_values rowfmt

/-- A horizontal-rule element of a format descriptor: either a fixed
`Line` quad or one of the procedural line builders appearing in
`_table_formats` (`src/tabulate.py` lines 153-255), made explicit as a
tagged variant as the specification's design notes direct. -/
inductive LineSpec where
  | fixed (l : Line)
  | pipeColons
  | latexTabular (booktabs : Bool)
deriving DecidableEq, Repr

/-- A row element of a format descriptor: either a fixed `DataRow` quad
or one of the procedural row builders appearing in `_table_formats`
(partial applications of the mediawiki/html row functions, and the LaTeX
row). -/
inductive RowSpec where
  | fixed (r : DataRow)
  | mediawikiRow (sep : String)
  | htmlRow (tag : String)
  | latexRow
deriving DecidableEq, Repr

/-- The `TableFormat` namedtuple (`src/tabulate.py` lines 84-87).  Every
registry entry supplies both row elements, so the row fields are plain
`RowSpec`s. -/
structure TableFormat where
  lineabove : Option LineSpec
  linebelowheader : Option LineSpec
  linebetweenrows : Option LineSpec
  linebelow : Option LineSpec
  headerrow : RowSpec
  datarow : RowSpec
  padding : Nat
  with_header_hide : Option (List String)
deriving DecidableEq, Repr

/-- `MIN_PADDING` (`src/tabulate.py` line 44). -/
def MIN_PADDING : Nat := 2

/-- `_table_formats` (`src/tabulate.py` lines 153-255), as an association
list in the source's insertion order. -/
def _table_formats : List (String × TableFormat) :=
  [("simple",
    TableFormat.mk (Option.some (LineSpec.fixed (Line.mk "" "-" "  " "")))
      (Option.some (LineSpec.fixed (Line.mk "" "-" "  " "")))
      Option.none
      (Option.some (LineSpec.fixed (Line.mk "" "-" "  " "")))
      (RowSpec.fixed (DataRow.mk "" "  " ""))
      (RowSpec.fixed (DataRow.mk "" "  " ""))
      0 (Option.some ["lineabove", "linebelow"])),
   ("plain",
    TableFormat.mk Option.none Option.none Option.none Option.none
      (RowSpec.fixed (DataRow.mk "" "  " ""))
      (RowSpec.fixed (DataRow.mk "" "  " ""))
      0 Option.none),
   ("grid",
    TableFormat.mk (Option.some (LineSpec.fixed (Line.mk "+" "-" "+" "+")))
      (Option.some (LineSpec.fixed (Line.mk "+" "=" "+" "+")))
      (Option.some (LineSpec.fixed (Line.mk "+" "-" "+" "+")))
      (Option.some (LineSpec.fixed (Line.mk "+" "-" "+" "+")))
      (RowSpec.fixed (DataRow.mk "|" "|" "|"))
      (RowSpec.fixed (DataRow.mk "|" "|" "|"))
      1 Option.none),
   ("fancy_grid",
    TableFormat.mk (Option.some (LineSpec.fixed (Line.mk "╒" "═" "╤" "╕")))
      (Option.some (LineSpec.fixed (Line.mk "╞" "═" "╪" "╡")))
      (Option.some (LineSpec.fixed (Line.mk "├" "─" "┼" "┤")))
      (Option.some (LineSpec.fixed (Line.mk "╘" "═" "╧" "╛")))
      (RowSpec.fixed (DataRow.mk "│" "│" "│"))
      (RowSpec.fixed (DataRow.mk "│" "│" "│"))
      0 Option.none),
   ("pipe",
    TableFormat.mk (Option.some LineSpec.pipeColons)
      (Option.some LineSpec.pipeColons)
      Option.none Option.none
      (RowSpec.fixed (DataRow.mk "|" "|" "|"))
      (RowSpec.fixed (DataRow.mk "|" "|" "|"))
      1 (Option.some ["lineabove"])),
   ("orgtbl",
    TableFormat.mk Option.none
      (Option.some (LineSpec.fixed (Line.mk "|" "-" "+" "|")))
      Option.none Option.none
      (RowSpec.fixed (DataRow.mk "|" "|" "|"))
      (RowSpec.fixed (DataRow.mk "|" "|" "|"))
      1 Option.none),
   ("psql",
    TableFormat.mk (Option.some (LineSpec.fixed (Line.mk "+" "-" "+" "+")))
      (Option.some (LineSpec.fixed (Line.mk "|" "-" "+" "|")))
      Option.none
      (Option.some (LineSpec.fixed (Line.mk "+" "-" "+" "+")))
      (RowSpec.fixed (DataRow.mk "|" "|" "|"))
      (RowSpec.fixed (DataRow.mk "|" "|" "|"))
      1 Option.none),
   ("rst",
    TableFormat.mk (Option.some (LineSpec.fixed (Line.mk "" "=" "  " "")))
      (Option.some (LineSpec.fixed (Line.mk "" "=" "  " "")))
      Option.none
      (Option.some (LineSpec.fixed (Line.mk "" "=" "  " "")))
      (RowSpec.fixed (DataRow.mk "" "  " ""))
      (RowSpec.fixed (DataRow.mk "" "  " ""))
      0 Option.none),
   ("mediawiki",
    TableFormat.mk
      (Option.some (LineSpec.fixed
        (Line.mk "\x7b| class=\"wikitable\" style=\"text-align: left;\"" "" ""
          "\n|+ <!-- caption -->\n|-")))
      (Option.some (LineSpec.fixed (Line.mk "|-" "" "" "")))
      (Option.some (LineSpec.fixed (Line.mk "|-" "" "" "")))
      (Option.some (LineSpec.fixed (Line.mk "|\x7d" "" "" "")))
      (RowSpec.mediawikiRow "!")
      (RowSpec.mediawikiRow "|")
      0 Option.none),
   ("html",
    TableFormat.mk (Option.some (LineSpec.fixed (Line.mk "<table>" "" "" "")))
      Option.none Option.none
      (Option.some (LineSpec.fixed (Line.mk "</table>" "" "" "")))
      (RowSpec.htmlRow "th")
      (RowSpec.htmlRow "td")
      0 Option.none),
   ("latex",
    TableFormat.mk (Option.some (LineSpec.latexTabular false))
      (Option.some (LineSpec.fixed (Line.mk "\\hline" "" "" "")))
      Option.none
      (Option.some (LineSpec.fixed (Line.mk "\\hline\n\\end\x7btabular\x7d" "" "" "")))
      RowSpec.latexRow RowSpec.latexRow
      1 Option.none),
   ("latex_booktabs",
    TableFormat.mk (Option.some (LineSpec.latexTabular true))
      (Option.some (LineSpec.fixed (Line.mk "\\midrule" "" "" "")))
      Option.none
      (Option.some (LineSpec.fixed (Line.mk "\\bottomrule\n\\end\x7btabular\x7d" "" "" "")))
      RowSpec.latexRow RowSpec.latexRow
      1 Option.none),
   ("tsv",
    TableFormat.mk Option.none Option.none Option.none Option.none
      (RowSpec.fixed (DataRow.mk "" "\t" ""))
      (RowSpec.fixed (DataRow.mk "" "\t" ""))
      0 Option.none)]

/-- Strict lexicographic comparison of character sequences by code
point, the order Python's `<` uses on strings. -/
def lexLtB (l1 l2 : List Char) : Bool :=
  match l1, l2 with
  | [], [] => false
  | [], _ :: _ => true
  | _ :: _, [] => false
  | a :: t1, b :: t2 =>
      if a.toNat < b.toNat then true
      else
        if b.toNat < a.toNat then false
        else lexLtB t1 t2

/-- Python's `<` on strings: strict lexicographic order by code point. -/
def strLtB (a b : String) : Bool :=
  lexLtB a.toList b.toList

/-- Insert a string into an already sorted list, keeping ascending
lexicographic order. -/
def insertStr (x : String) (l : List String) : List String :=
  match l with
  | [] => [x]
  | y :: ys => if strLtB x y then x :: y :: ys else y :: insertStr x ys

/-- Model of Python's `sorted` on a list of strings (ascending
lexicographic insertion sort). -/
def sortStr (l : List String) : List String :=
  match l with
  | [] => []
  | x :: xs => insertStr x (sortStr xs)

/-- `tabulate_formats = list(sorted(_table_formats.keys()))`
(`src/tabulate.py` line 258). -/
def tabulate_formats : List String :=
  sortStr (_table_formats.map Prod.fst)

/-- Python's `_table_formats[...]` dictionary lookup, as an association
list search (insertion order preserved; the keys are distinct). -/
def lookupFmt (name : String) : Option TableFormat :=
  (_table_formats.find? (fun p => p.1 == name)).map Prod.snd

/-- `simple_separated_format(separator)` (`src/tabulate.py` lines
265-276). -/
def simple_separated_format (separator : String) : TableFormat :=
  TableFormat.mk Option.none Option.none Option.none Option.none
    (RowSpec.fixed (DataRow.mk "" separator ""))
    (RowSpec.fixed (DataRow.mk "" separator ""))
    0 Option.none

/-- Modelled from the spec: the position of each classification in the
type lattice (the column aggregator's merge function is not among the
retained sources, which break off at line 361).  Section 4.1 of the
specification gives the chain none ⊏ int ⊏ long ⊏ float ⊏ text plus a
separate binary-text slot, placed here below text. -/
def typeLevel (t : PyType) : Nat :=
  match t with
  | PyType.noneT => 0
  | PyType.intT => 1
  | PyType.longT => 2
  | PyType.floatT => 3
  | PyType.binaryT => 4
  | PyType.textT => 5

/-- The lattice order on classifications: `a` is at most as general as
`b`. -/
def typeLe (a b : PyType) : Prop :=
  typeLevel a ≤ typeLevel b

instance (a b : PyType) : Decidable (typeLe a b) :=
  Nat.decLe (typeLevel a) (typeLevel b)

/-- Modelled from the spec: merging two classifications yields the
least-general common supertype, i.e. the more general of the two in the
lattice order (specification sections 4.1 and 8). -/
def mergeType (a b : PyType) : PyType :=
  if typeLevel a ≤ typeLevel b then b else a

/-- Total extraction of a value's classification for the renderer; the
conversion models only raise errors that `_isconvertible` catches, so
the fallback branch is never taken. -/
def typeOfVal (v : PyVal) : PyType :=
  match _type v true with
  | Except.ok t => t
  | Except.error _ => PyType.textT

/-- Modelled from the spec: a column's classification is the lattice
merge of every data cell's classification (specification section 4.2). -/
def columnType (cells : List PyVal) : PyType :=
  cells.foldl (fun acc v => mergeType acc (typeOfVal v)) PyType.noneT

/-- Modelled from the spec: numeric columns (int, long, float) align
"decimal", everything else aligns "left" by default (specification
section 4.2). -/
def colAlign (t : PyType) : String :=
  if t = PyType.intT ∨ t = PyType.longT ∨ t = PyType.floatT then "decimal" else "left"

/-- Modelled from the spec: the cell formatter with default options
(specification section 4.3) — missing values render as the empty
substitute, integers via decimal conversion, floats via their literal
representation, text and byte-strings and date values via their textual
payload. -/
def _format (v : PyVal) : String :=
  match v with
  | PyVal.none => ""
  | PyVal.int n => toString n
  | PyVal.float lit => lit
  | PyVal.str s => s
  | PyVal.bytes b => b
  | PyVal.date iso => iso

/-- Longest display line of a character sequence: `cur` is the length of
the line being read, `best` the longest line finished so far. -/
def maxLineLen (cur best : Nat) (l : List Char) : Nat :=
  match l with
  | [] => Nat.max cur best
  | c :: cs =>
      if c = '\n' then maxLineLen 0 (Nat.max cur best) cs
      else maxLineLen (cur + 1) best cs

/-- Modelled from the spec: display width — invisible ANSI sequences are
stripped first, and text with embedded newlines is measured by its
widest line (specification section 4.1).  Every remaining character
counts one column; the East-Asian wide-character rule is not modelled,
as no claim exercises it. -/
def visibleWidth (s : String) : Nat :=
  maxLineLen 0 0 (_strip_invisible s).toList

/-- Number of characters after the last decimal point, if any. -/
def afterLastDot (l : List Char) : Option Nat :=
  match l with
  | [] => Option.none
  | c :: cs =>
      match afterLastDot cs with
      | Option.some k => Option.some k
      | Option.none => if c = '.' then Option.some cs.length else Option.none

/-- Modelled from the spec: `_afterpoint` — the count of symbols after
the decimal point, `-1` when the cell is not a parseable number or has
no fractional part (specification section 4.2; the body of the source
function is cut off at line 361). -/
def _afterpoint (s : String) : Int :=
  if strIsFloatLit s then
    match afterLastDot s.toList with
    | Option.some k => (k : Int)
    | Option.none => -1
  else -1

/-- Left-pad with spaces to the given display width. -/
def padLeftTo (w : Nat) (s : String) : String :=
  spaces (w - visibleWidth s) ++ s

/-- Right-pad with spaces to the given display width. -/
def padRightTo (w : Nat) (s : String) : String :=
  s ++ spaces (w - visibleWidth s)

/-- Center with spaces to the given display width. -/
def padCenterTo (w : Nat) (s : String) : String :=
  let l := (w - visibleWidth s) / 2
  spaces l ++ s ++ spaces (w - visibleWidth s - l)

/-- Modelled from the spec: decimal alignment first pads every cell of a
column on the right so that all decimal points line up (specification
section 4.2). -/
def decimalPad (cells : List String) : List String :=
  let maxAfter := (cells.map _afterpoint).foldl max (-1)
  cells.map (fun s => s ++ spaces (maxAfter - _afterpoint s).toNat)

/-- Pad one (already decimally padded) cell to the column width per the
column alignment. -/
def alignCellTo (a : String) (w : Nat) (s : String) : String :=
  if a = "right" ∨ a = "decimal" then padLeftTo w s
  else
    if a = "center" then padCenterTo w s
    else padRightTo w s

/-- Modelled from the spec: header cells are padded to the column width
following the column's alignment (right for numeric/decimal columns). -/
def alignHeader (a : String) (w : Nat) (h : String) : String :=
  if a = "right" ∨ a = "decimal" then padLeftTo w h
  else
    if a = "center" then padCenterTo w h
    else padRightTo w h

/-- A format is borderless when its fixed data row has empty begin/end
brackets; the specification floors such formats' padding at the
library's minimum (section 4.2). -/
def isBorderless (fmt : TableFormat) : Bool :=
  match fmt.datarow with
  | RowSpec.fixed r => r.begin_ == "" && r.end_ == ""
  | _ => false

/-- Render one horizontal-rule element: a fixed quad repeats its fill
across every column width and joins with the separator inside the
brackets; a procedural element receives the column widths and
alignments (specification section 4.5). -/
def renderLine (colwidths : List Nat) (colaligns : List String) (spec : LineSpec) : String :=
  match spec with
  | LineSpec.fixed l =>
      rstrip (l.begin_ ++ joinSep l.sep (colwidths.map (fun w => repeatStr l.hline w)) ++ l.end_)
  | LineSpec.pipeColons => _pipe_line_with_colons colwidths colaligns
  | LineSpec.latexTabular b => _latex_line_begin_tabular colwidths colaligns b

/-- Render one row element: a fixed quad joins the padded cells with its
separator inside the brackets; the procedural elements are the concrete
row builders of the source (specification section 4.5). -/
def renderRow (cells : List String) (colwidths : List Nat) (colaligns : List String)
    (spec : RowSpec) : String :=
  match spec with
  | RowSpec.fixed r => _build_simple_row cells r
  | RowSpec.mediawikiRow sep => _mediawiki_row_with_attrs sep cells colwidths colaligns
  | RowSpec.htmlRow tag => _html_row_with_attrs tag cells colwidths colaligns
  | RowSpec.latexRow => _latex_row cells colwidths colaligns

/-- Interleave the between-rows rule (when present) between consecutive
data rows. -/
def interposeRows (sep : List String) (rows : List String) : List String :=
  match rows with
  | [] => []
  | [x] => [x]
  | x :: y :: xs => x :: (sep ++ interposeRows sep (y :: xs))

/-- Failure modes of the render entry point per the specification
(sections 6 and 7): an unknown format name is a `ConfigurationError`,
an unrepresentable cell a `TypeConversionError`. -/
inductive RenderError where
  | configurationError
  | typeConversionError
deriving DecidableEq, Repr

/-- Modelled from the spec: the four-stage table renderer (specification
section 4.5) — normalize the input to a common arity padding short rows
with missing-value cells, aggregate each column's type, alignment and
width (width = max of header and cell display widths plus twice the
effective padding, the descriptor padding floored at `MIN_PADDING` for
borderless formats, section 4.2), format and pad every cell, and
assemble lineabove, headerrow, linebelowheader, the data rows
interleaved with linebetweenrows, and linebelow, omitting elements
hidden when a header is present and joining all lines with newlines.
The concrete `tabulate` / `_format_table` bodies are not among the
retained sources, which break off at line 361. -/
def renderWithFormat (fmt : TableFormat) (headers : List String)
    (rows : List (List PyVal)) : String :=
  let ncols := Nat.max headers.length ((rows.map List.length).foldl Nat.max 0)
  let cols := (List.range ncols).map (fun i => rows.map (fun r => r.getD i PyVal.none))
  let types := cols.map columnType
  let aligns := types.map colAlign
  let headers2 := if headers.isEmpty then [] else headers ++ List.replicate (ncols - headers.length) ""
  let rawCols := cols.map (fun c => c.map _format)
  let decCols := (rawCols.zip aligns).map (fun p => if p.2 = "decimal" then decimalPad p.1 else p.1)
  let hWidths := if headers2.isEmpty then List.replicate ncols 0 else headers2.map visibleWidth
  let innerWidths :=
    (decCols.zip hWidths).map (fun p => Nat.max p.2 ((p.1.map visibleWidth).foldl Nat.max 0))
  let effPad := if isBorderless fmt then Nat.max fmt.padding MIN_PADDING else fmt.padding
  let widths := innerWidths.map (fun w => w + 2 * effPad)
  let alignedCols :=
    (decCols.zip (aligns.zip innerWidths)).map (fun p => p.1.map (alignCellTo p.2.1 p.2.2))
  let padCell := fun (s : String) => spaces effPad ++ s ++ spaces effPad
  let alignedRows := (List.range rows.length).map (fun j => alignedCols.map (fun c => c.getD j ""))
  let paddedRows := alignedRows.map (fun r => r.map padCell)
  let paddedHeaders :=
    (headers2.zip (aligns.zip innerWidths)).map (fun p => padCell (alignHeader p.2.1 p.2.2 p.1))
  let hidden := if headers2.isEmpty then [] else fmt.with_header_hide.getD []
  let lineIf := fun (nm : String) (o : Option LineSpec) =>
    if hidden.contains nm then [] else (o.map (renderLine widths aligns)).toList
  let headerLines :=
    if headers2.isEmpty then []
    else renderRow paddedHeaders widths aligns fmt.headerrow ::
      lineIf "linebelowheader" fmt.linebelowheader
  let dataLines := paddedRows.map (fun r => renderRow r widths aligns fmt.datarow)
  let body := interposeRows (lineIf "linebetweenrows" fmt.linebetweenrows) dataLines
  joinSep "\n" (lineIf "lineabove" fmt.lineabove ++ headerLines ++ body ++ lineIf "linebelow" fmt.linebelow)

/-- Modelled from the spec: the render entry point — look the format name
up in the static registry and fail synchronously with a
`ConfigurationError` when it is not a key, producing no output
(specification sections 6 and 7); otherwise render with the found
descriptor.  The concrete `tabulate` body is not among the retained
sources, which break off at line 361. -/
def renderTable (fmtName : String) (headers : List String)
    (rows : List (List PyVal)) : Except RenderError String :=
  match lookupFmt fmtName with
  | Option.none => Except.error RenderError.configurationError
  | Option.some fmt => Except.ok (renderWithFormat fmt headers rows)

lemma mk_append (l1 l2 : List Char) : String.mk l1 ++ String.mk l2 = String.mk (l1 ++ l2) := rfl

lemma flatten_replicate_singleton (c : Char) (n : Nat) :
    List.flatten (List.replicate n [c]) = List.replicate n c := by
  induction n with
  | zero => rfl
  | succ k ih => simp [List.replicate_succ, ih]

lemma repeatStr_dash (n : Nat) : repeatStr "-" n = String.mk (List.replicate n '-') := by
  unfold repeatStr
  rw [show ("-" : String).toList = ['-'] from rfl, flatten_replicate_singleton]

lemma matchAnsi_cons_ne (c : Char) (cs : List Char) (h : ¬ c = '\x1b') :
    matchAnsi (c :: cs) = Option.none := by
  cases cs with
  | nil => rfl
  | cons d ds => simp [matchAnsi, h]

lemma stripAnsiGo_id : ∀ (n : Nat) (l : List Char), (∀ c ∈ l, ¬ c = '\x1b') →
    l.length ≤ n → stripAnsiGo n l = l := by
  intro n
  induction n with
  | zero =>
      intro l h hl
      cases l with
      | nil => rfl
      | cons c cs => simp at hl
  | succ k ih =>
      intro l h hl
      cases l with
      | nil => rfl
      | cons c cs =>
          have hc : ¬ c = '\x1b' := h c (List.mem_cons_self c cs)
          simp only [stripAnsiGo, matchAnsi_cons_ne c cs hc]
          rw [ih cs (fun x hx => h x (List.mem_cons_of_mem c hx))
            (by simpa using Nat.le_of_succ_le_succ hl)]

lemma maxLineLen_no_nl : ∀ (l : List Char) (cur best : Nat), (∀ c ∈ l, ¬ c = '\n') →
    maxLineLen cur best l = Nat.max (cur + l.length) best := by
  intro l
  induction l with
  | nil => intro cur best h; simp [maxLineLen]
  | cons c cs ih =>
      intro cur best h
      have hc : ¬ c = '\n' := h c (List.mem_cons_self c cs)
      simp only [maxLineLen, hc, if_false]
      rw [ih (cur + 1) best (fun x hx => h x (List.mem_cons_of_mem c hx))]
      congr 1
      simp
      omega

lemma visibleWidth_plain (l : List Char) (hesc : ∀ c ∈ l, ¬ c = '\x1b')
    (hnl : ∀ c ∈ l, ¬ c = '\n') : visibleWidth (String.mk l) = l.length := by
  unfold visibleWidth _strip_invisible
  rw [show (String.mk l).toList = l from rfl]
  rw [stripAnsiGo_id l.length l hesc (Nat.le_refl _)]
  rw [show (String.mk l).toList = l from rfl]
  rw [maxLineLen_no_nl l 0 0 hnl]
  simp

lemma plain_chars_dash_colon (n : Nat) :
    ∀ c ∈ List.replicate n '-' ++ [':'], ¬ c = '\x1b' ∧ ¬ c = '\n' := by
  intro c hc
  rcases List.mem_append.mp hc with h | h
  · rw [List.eq_of_mem_replicate h]; exact ⟨by decide, by decide⟩
  · simp at h; subst h; exact ⟨by decide, by decide⟩

lemma vw_dashes_colon (n : Nat) : visibleWidth (repeatStr "-" n ++ ":") = n + 1 := by
  rw [repeatStr_dash, show (":" : String) = String.mk [':'] from rfl, mk_append]
  rw [visibleWidth_plain _ (fun c hc => (plain_chars_dash_colon n c hc).1)
    (fun c hc => (plain_chars_dash_colon n c hc).2)]
  simp

lemma plain_chars_colon_dashes (n : Nat) :
    ∀ c ∈ ':' :: List.replicate n '-', ¬ c = '\x1b' ∧ ¬ c = '\n' := by
  intro c hc
  rcases List.mem_cons.mp hc with h | h
  · subst h; exact ⟨by decide, by decide⟩
  · rw [List.eq_of_mem_replicate h]; exact ⟨by decide, by decide⟩

lemma vw_colon_dashes (n : Nat) : visibleWidth (":" ++ repeatStr "-" n) = n + 1 := by
  rw [repeatStr_dash, show (":" : String) = String.mk [':'] from rfl, mk_append]
  rw [show ([':'] ++ List.replicate n '-') = ':' :: List.replicate n '-' from rfl]
  rw [visibleWidth_plain _ (fun c hc => (plain_chars_colon_dashes n c hc).1)
    (fun c hc => (plain_chars_colon_dashes n c hc).2)]
  simp

lemma plain_chars_colon_dashes_colon (n : Nat) :
    ∀ c ∈ ':' :: (List.replicate n '-' ++ [':']), ¬ c = '\x1b' ∧ ¬ c = '\n' := by
  intro c hc
  rcases List.mem_cons.mp hc with h | h
  · subst h; exact ⟨by decide, by decide⟩
  · exact plain_chars_dash_colon n c h

lemma vw_colon_dashes_colon (n : Nat) :
    visibleWidth (":" ++ repeatStr "-" n ++ ":") = n + 2 := by
  rw [repeatStr_dash, show (":" : String) = String.mk [':'] from rfl, mk_append, mk_append]
  rw [show ([':'] ++ List.replicate n '-' ++ [':']) = ':' :: (List.replicate n '-' ++ [':']) from rfl]
  rw [visibleWidth_plain _ (fun c hc => (plain_chars_colon_dashes_colon n c hc).1)
    (fun c hc => (plain_chars_colon_dashes_colon n c hc).2)]
  simp

lemma seg_right_eq (w : Nat) :
    _pipe_segment_with_colons "right" w = repeatStr "-" (w - 1) ++ ":" := by
  unfold _pipe_segment_with_colons
  rw [if_pos (Or.inl rfl)]

lemma seg_decimal_eq (w : Nat) :
    _pipe_segment_with_colons "decimal" w = repeatStr "-" (w - 1) ++ ":" := by
  unfold _pipe_segment_with_colons
  rw [if_pos (Or.inr rfl)]

lemma seg_left_eq (w : Nat) :
    _pipe_segment_with_colons "left" w = ":" ++ repeatStr "-" (w - 1) := by
  unfold _pipe_segment_with_colons
  rw [if_neg (by decide), if_neg (by decide), if_pos rfl]

lemma seg_center_eq (w : Nat) :
    _pipe_segment_with_colons "center" w = ":" ++ repeatStr "-" (w - 2) ++ ":" := by
  unfold _pipe_segment_with_colons
  rw [if_neg (by decide), if_pos rfl]

lemma typeCore_eq_amendedCore : ∀ v : PyVal,
    _typeCore v = Except.ok (typeClaimOrderAmendedCore v) := by
  intro v
  cases v with
  | str s =>
      by_cases hI : strIsIntLit s <;> by_cases hF : strIsFloatLit s <;>
        simp [_typeCore, typeClaimOrderAmendedCore, _isint, _isnumber, _isconvertible,
          intConv, floatConv, convOk, isNone, hasIsoformat, isBinary, isText, typeIs,
          Except.bind, hI, hF]
  | bytes b =>
      by_cases hI : strIsIntLit b <;> by_cases hF : strIsFloatLit b <;>
        simp [_typeCore, typeClaimOrderAmendedCore, _isint, _isnumber, _isconvertible,
          intConv, floatConv, convOk, isNone, hasIsoformat, isBinary, isText, typeIs,
          Except.bind, hI, hF]
  | _ => rfl

/-- C1 (counterexample): the claimed classification order is violated by a
floating-point cell value: `int(3.5)` succeeds, so the claim's step
"convertible to the target integer type → int" would classify the float
3.5 as "int", while `_type` classifies it as "float" (the integer
convertibility step of `_isint` applies only to text or byte-string
input). -/
theorem type_claim_order_counterexample :
    _type (PyVal.float "3.5") true = Except.ok PyType.floatT ∧
    typeClaimOrder (PyVal.float "3.5") true = PyType.intT ∧
    PyType.floatT ≠ PyType.intT := by
  refine ⟨by decide, by decide, by decide⟩

/-- C1 (amended): for every cell value and stripping flag, `_type` raises
nothing and returns the first matching class in the claimed order, with
the two integer-convertibility steps restricted to text or byte-string
values, as the guard in `_isint` requires; invisible escape sequences are
stripped from textual input first when stripping is enabled. -/
theorem type_first_match_amended :
    ∀ (v : PyVal) (hi : Bool), _type v hi = Except.ok (typeClaimOrderAmended v hi) := by
  intro v hi
  simp only [_type, typeClaimOrderAmended]
  exact typeCore_eq_amendedCore _

/-- C2: for every input rows and header and every format-name string that
is not a key of the format registry, the render entry point fails
synchronously with a ConfigurationError and produces no output. -/
theorem unknown_format_configuration_error
    (headers : List String) (rows : List (List PyVal)) (name : String)
    (h : name ∉ _table_formats.map Prod.fst) :
    renderTable name headers rows = Except.error RenderError.configurationError := by
  have hf : _table_formats.find? (fun p => p.1 == name) = Option.none := by
    rw [List.find?_eq_none]
    intro p hp
    simp only [beq_iff_eq]
    intro hpc
    exact h (List.mem_map.mpr ⟨p, hp, hpc⟩)
  unfold renderTable lookupFmt
  rw [hf]
  rfl

/-- C2 witness at the unregistered name "fancy". -/
theorem unknown_format_configuration_error_witness :
    renderTable "fancy" [] [] = Except.error RenderError.configurationError :=
  unknown_format_configuration_error [] [] "fancy" (by decide)

/-- C3: on the type lattice none ⊏ int ⊏ long ⊏ float ⊏ text the merge is
monotone (never strictly more specific than either input), yields the
least-general common supertype, and has "none" as identity. -/
theorem merge_monotone_lub_none_identity :
    (typeLevel PyType.noneT < typeLevel PyType.intT ∧
     typeLevel PyType.intT < typeLevel PyType.longT ∧
     typeLevel PyType.longT < typeLevel PyType.floatT ∧
     typeLevel PyType.floatT < typeLevel PyType.textT) ∧
    (∀ a b : PyType, typeLe a (mergeType a b) ∧ typeLe b (mergeType a b)) ∧
    (∀ a b c : PyType, typeLe a c → typeLe b c → typeLe (mergeType a b) c) ∧
    (∀ a : PyType, mergeType PyType.noneT a = a) := by
  refine ⟨by decide, by decide, by decide, by decide⟩

/-- C3 witness: the least-upper-bound property applied at int, none and
text. -/
theorem merge_monotone_lub_none_identity_witness :
    typeLe (mergeType PyType.intT PyType.noneT) PyType.textT :=
  merge_monotone_lub_none_identity.2.2.1 PyType.intT PyType.noneT PyType.textT
    (by decide) (by decide)

/-- C4: every pipe-rule segment has the claimed colon shape for each
alignment, the colon rule joins the per-column segments between pipes,
and rendering header=["a","bb"], rows=[[1,2]] in the pipe format yields
exactly that rule, built from the computed widths [3, 4] and decimal
alignments, as its second output line. -/
theorem pipe_second_line_colon_rule :
    (∀ w : Nat,
      _pipe_segment_with_colons "right" w = repeatStr "-" (w - 1) ++ ":" ∧
      _pipe_segment_with_colons "decimal" w = repeatStr "-" (w - 1) ++ ":" ∧
      _pipe_segment_with_colons "left" w = ":" ++ repeatStr "-" (w - 1) ∧
      _pipe_segment_with_colons "center" w = ":" ++ repeatStr "-" (w - 2) ++ ":") ∧
    (∀ (widths : List Nat) (aligns : List String),
      _pipe_line_with_colons widths aligns =
        "|" ++ joinSep "|"
          ((aligns.zip widths).map (fun p => _pipe_segment_with_colons p.1 p.2)) ++ "|") ∧
    renderTable "pipe" ["a", "bb"] [[PyVal.int 1, PyVal.int 2]] =
      Except.ok ("| a | bb |" ++ "\n" ++
        _pipe_line_with_colons [3, 4] ["decimal", "decimal"] ++ "\n" ++ "| 1 |  2 |") := by
  refine ⟨fun w => ⟨seg_right_eq w, seg_decimal_eq w, seg_left_eq w, seg_center_eq w⟩,
    fun widths aligns => rfl, by decide⟩

/-- C5: a LaTeX row is assembled from the cells with every character
escaped first; the escape table maps exactly the twelve special
characters to their LaTeX escapes and leaves every other character
unchanged. -/
theorem latex_row_escapes_every_char :
    (∀ (cells : List String) (widths : List Nat) (aligns : List String),
      _latex_row cells widths aligns =
        _build_simple_row (cells.map (fun cell => String.join (cell.toList.map escape_char)))
          (DataRow.mk "" "&" "\\\\")) ∧
    (escape_char '&' = "\\&" ∧ escape_char '%' = "\\%" ∧ escape_char '$' = "\\$" ∧
     escape_char '#' = "\\#" ∧ escape_char '_' = "\\_" ∧ escape_char '^' = "\\^\x7b\x7d" ∧
     escape_char '\x7b' = "\\\x7b" ∧ escape_char '\x7d' = "\\\x7d" ∧
     escape_char '~' = "\\textasciitilde\x7b\x7d" ∧
     escape_char '\\' = "\\textbackslash\x7b\x7d" ∧
     escape_char '<' = "\\ensuremath\x7b<\x7d" ∧
     escape_char '>' = "\\ensuremath\x7b>\x7d") ∧
    (∀ c : Char, c ∉ LATEX_ESCAPE_RULES.map Prod.fst → escape_char c = String.singleton c) := by
  refine ⟨fun cells widths aligns => rfl, by decide, ?_⟩
  intro c hc
  have hf : LATEX_ESCAPE_RULES.find? (fun p => p.1 == c) = Option.none := by
    rw [List.find?_eq_none]
    intro p hp
    simp only [beq_iff_eq]
    intro hpc
    exact hc (List.mem_map.mpr ⟨p, hp, hpc⟩)
  unfold escape_char
  rw [hf]

/-- C5 witness: an ordinary character passes through unescaped. -/
theorem latex_row_escapes_every_char_witness :
    escape_char 'a' = String.singleton 'a' :=
  latex_row_escapes_every_char.2.2 'a' (by decide)

/-- C6: the format-listing entry point is exactly the registry's key set,
in ascending alphabetical (code-point lexicographic) order, with no
names added, dropped or duplicated. -/
theorem tabulate_formats_sorted_registry_keys :
    tabulate_formats = ["fancy_grid", "grid", "html", "latex", "latex_booktabs",
      "mediawiki", "orgtbl", "pipe", "plain", "psql", "rst", "simple", "tsv"] ∧
    tabulate_formats.Perm (_table_formats.map Prod.fst) ∧
    List.Pairwise (fun a b => strLtB a b = true) tabulate_formats ∧
    tabulate_formats.Nodup := by
  refine ⟨by decide, by decide, by decide, by decide⟩

/-- C7: the static registry holds a complete format descriptor for each
of the thirteen spec-listed dialects. -/
theorem registry_covers_required_dialects :
    (lookupFmt "plain").isSome = true ∧ (lookupFmt "simple").isSome = true ∧
    (lookupFmt "grid").isSome = true ∧ (lookupFmt "fancy_grid").isSome = true ∧
    (lookupFmt "pipe").isSome = true ∧ (lookupFmt "orgtbl").isSome = true ∧
    (lookupFmt "psql").isSome = true ∧ (lookupFmt "rst").isSome = true ∧
    (lookupFmt "mediawiki").isSome = true ∧ (lookupFmt "html").isSome = true ∧
    (lookupFmt "latex").isSome = true ∧ (lookupFmt "latex_booktabs").isSome = true ∧
    (lookupFmt "tsv").isSome = true := by
  refine ⟨by decide, by decide, by decide, by decide, by decide, by decide, by decide,
    by decide, by decide, by decide, by decide, by decide, by decide⟩

/-- C8: a pipe-rule segment occupies exactly the column width: for left,
right and decimal alignments whenever the width is at least 1, and for
center whenever it is at least 2. -/
theorem pipe_segment_preserves_width :
    ∀ (a : String) (w : Nat),
      ((a = "left" ∨ a = "right" ∨ a = "decimal") → 1 ≤ w →
        visibleWidth (_pipe_segment_with_colons a w) = w) ∧
      (a = "center" → 2 ≤ w → visibleWidth (_pipe_segment_with_colons a w) = w) := by
  intro a w
  constructor
  · intro ha hw
    rcases ha with rfl | rfl | rfl
    · rw [seg_left_eq, vw_colon_dashes]; omega
    · rw [seg_right_eq, vw_dashes_colon]; omega
    · rw [seg_decimal_eq, vw_dashes_colon]; omega
  · intro ha hw
    subst ha
    rw [seg_center_eq, vw_colon_dashes_colon]; omega

/-- C8 witness at a left-aligned column of width 3. -/
theorem pipe_segment_preserves_width_witness :
    visibleWidth (_pipe_segment_with_colons "left" 3) = 3 :=
  (pipe_segment_preserves_width "left" 3).1 (Or.inl rfl) (by decide)

/-- C9: whenever the attempted conversion succeeds or raises only
ValueError or TypeError, `_isconvertible` returns a boolean that is true
exactly when the conversion succeeds; `_isnumber` and `_isint` always
return a boolean and never raise, and `_isint` is true exactly for
values of the integer type itself or text/byte strings convertible to
it. -/
theorem convertibility_checks_never_raise :
    (∀ (α : Type) (conv : PyVal → Except PyErr α) (v : PyVal),
      ((∃ x, conv v = Except.ok x) ∨ conv v = Except.error PyErr.valueError ∨
        conv v = Except.error PyErr.typeError) →
      _isconvertible conv v = Except.ok (convOk (conv v)) ∧
      (convOk (conv v) = true ↔ ∃ x, conv v = Except.ok x)) ∧
    (∀ v : PyVal, _isnumber v = Except.ok (convOk (floatConv v))) ∧
    (∀ (v : PyVal) (t : IntType),
      _isint v t = Except.ok
        (typeIs t v || ((isBinary v || isText v) && convOk (intConv t v)))) := by
  refine ⟨?_, ?_, ?_⟩
  · intro α conv v h
    rcases h with ⟨x, hx⟩ | h | h
    · exact ⟨by simp [_isconvertible, hx, convOk], by simp [convOk, hx]⟩
    · exact ⟨by simp [_isconvertible, h, convOk], by simp [convOk, h]⟩
    · exact ⟨by simp [_isconvertible, h, convOk], by simp [convOk, h]⟩
  · intro v
    cases v with
    | str s =>
        by_cases h : strIsFloatLit s <;>
          simp [_isnumber, _isconvertible, floatConv, convOk, h]
    | bytes b =>
        by_cases h : strIsFloatLit b <;>
          simp [_isnumber, _isconvertible, floatConv, convOk, h]
    | _ => rfl
  · intro v t
    cases v with
    | str s =>
        by_cases h : strIsIntLit s <;>
          simp [_isint, _isconvertible, intConv, typeIs, isBinary, isText, convOk, h]
    | bytes b =>
        by_cases h : strIsIntLit b <;>
          simp [_isint, _isconvertible, intConv, typeIs, isBinary, isText, convOk, h]
    | _ => rfl

/-- C9 witness: the integer conversion on the text "12" succeeds, and
`_isconvertible` reports exactly that. -/
theorem convertibility_checks_never_raise_witness :
    _isconvertible (intConv IntType.int) (PyVal.str "12") =
      Except.ok (convOk (intConv IntType.int (PyVal.str "12"))) ∧
    (convOk (intConv IntType.int (PyVal.str "12")) = true ↔
      ∃ x, intConv IntType.int (PyVal.str "12") = Except.ok x) :=
  convertibility_checks_never_raise.1 Unit (intConv IntType.int) (PyVal.str "12")
    (Or.inl ⟨(), by decide⟩)

/-- C10: the separator-based ad hoc format has no horizontal rules, zero
padding, no header-hide set, and renders a header row exactly like a
data row. -/
theorem simple_separated_format_header_like_data :
    ∀ sep : String,
      (simple_separated_format sep).lineabove = Option.none ∧
      (simple_separated_format sep).linebelowheader = Option.none ∧
      (simple_separated_format sep).linebetweenrows = Option.none ∧
      (simple_separated_format sep).linebelow = Option.none ∧
      (simple_separated_format sep).padding = 0 ∧
      (simple_separated_format sep).with_header_hide = Option.none ∧
      (simple_separated_format sep).headerrow = RowSpec.fixed (DataRow.mk "" sep "") ∧
      (simple_separated_format sep).headerrow = (simple_separated_format sep).datarow ∧
      (∀ (cells : List String) (widths : List Nat) (aligns : List String),
        renderRow cells widths aligns (simple_separated_format sep).headerrow =
          renderRow cells widths aligns (simple_separated_format sep).datarow) :=
  fun sep => ⟨rfl, rfl, rfl, rfl, rfl, rfl, rfl, rfl, fun _ _ _ => rfl⟩
